import Mathlib

/-!
Verification of the paginated document list component and the document scene
controller of the repository, against their natural-language specification.

The first part embeds `src/app/components/PaginatedDocumentList.js`:
the component keeps observable fields `isLoaded`, `isFetching`, `offset`
and `allowLoadMore`, and three operations that touch them
(`fetchResults`, `loadMoreResults`, `componentDidUpdate` / mount).
The asynchronous fetch is embedded by passing the value the fetch promise
resolved to (`Option (List α)`, where `none` stands for a falsy resolution
such as `undefined`) into the state transformer that runs when the promise
settles; the request that was dispatched (its `limit` and `offset` fields)
is returned alongside the new state.
-/

namespace Spec2Proof

/-- The observable cursor state of `PaginatedDocumentList`:
`isLoaded`, `isFetching`, `offset`, `allowLoadMore`. -/
structure PaginatedListState where
  isLoaded : Bool
  isFetching : Bool
  offset : Nat
  allowLoadMore : Bool
deriving DecidableEq, Repr

/-- Field initializers of the component: `isLoaded = false`,
`isFetching = false`, `offset = 0`, `allowLoadMore = true`. -/
def initialPaginatedState : PaginatedListState :=
  { isLoaded := false, isFetching := false, offset := 0, allowLoadMore := true }

/-- The options object passed to the injected fetch function:
`fetch(\x7b limit, offset: this.offset, ...options \x7d)`.  Only the
cursor-relevant fields are modelled. -/
structure FetchRequest where
  limit : Nat
  offset : Nat
deriving DecidableEq, Repr

/-- `fetchResults` of `PaginatedDocumentList`, embedded as one step: the fetch
is dispatched at the current offset, and once its promise settles with
`results` the cursor state is updated.  `limit` is `DEFAULT_PAGINATION_LIMIT`
(a constant imported from `stores/BaseStore`, kept as a parameter here).
Mirrors the source: if `results` is truthy and its length is `0` or below the
limit then `allowLoadMore := false`, otherwise `offset += limit`; finally
`isLoaded := true` and `isFetching := false`. -/
def fetchResults (limit : Nat) (results : Option (List α)) (s : PaginatedListState) :
    PaginatedListState × FetchRequest :=
  let request : FetchRequest := { limit := limit, offset := s.offset }
  let s1 : PaginatedListState := { s with isFetching := true }
  let s2 : PaginatedListState :=
    match results with
    | some rs =>
        if rs.length = 0 ∨ rs.length < limit then
          { s1 with allowLoadMore := false }
        else
          { s1 with offset := s1.offset + limit }
    | none => { s1 with offset := s1.offset + limit }
  ({ s2 with isLoaded := true, isFetching := false }, request)

/-- `loadMoreResults` of `PaginatedDocumentList`: returns at once when
`!this.allowLoadMore || this.isFetching`, otherwise awaits `fetchResults`.
The second component is the dispatched request, if any. -/
def loadMoreResults (limit : Nat) (results : Option (List α)) (s : PaginatedListState) :
    PaginatedListState × Option FetchRequest :=
  if s.allowLoadMore = false ∨ s.isFetching = true then (s, none)
  else
    let out := fetchResults limit results s
    (out.1, some out.2)

/-- `componentDidUpdate` of `PaginatedDocumentList`: when the identity of the
injected fetch function changed (`prevProps.fetch !== this.props.fetch`,
embedded as the flag `fetchChanged`) it calls `fetchResults`; otherwise it
does nothing. -/
def componentDidUpdate (fetchChanged : Bool) (limit : Nat) (results : Option (List α))
    (s : PaginatedListState) : PaginatedListState × Option FetchRequest :=
  if fetchChanged then
    let out := fetchResults limit results s
    (out.1, some out.2)
  else (s, none)

/-- `componentDidMount` of `PaginatedDocumentList`: calls `fetchResults` on the
freshly initialized state. -/
def componentDidMount (limit : Nat) (results : Option (List α)) :
    PaginatedListState × FetchRequest :=
  fetchResults limit results initialPaginatedState

/-- Any operation of the loader that can change its cursor state, each carrying
the value the fetch promise (if one is dispatched) resolves to. -/
inductive LoaderOp (α : Type) where
  | fetchStep (results : Option (List α))
  | loadMore (results : Option (List α))
  | update (fetchChanged : Bool) (results : Option (List α))

/-- Apply one loader operation to the state. -/
def applyLoaderOp (limit : Nat) (s : PaginatedListState) : LoaderOp α → PaginatedListState
  | .fetchStep results => (fetchResults limit results s).1
  | .loadMore results => (loadMoreResults limit results s).1
  | .update fetchChanged results => (componentDidUpdate fetchChanged limit results s).1

/-- Run a sequence of loader operations from a state. -/
def runLoaderOps (limit : Nat) (s : PaginatedListState) (ops : List (LoaderOp α)) :
    PaginatedListState :=
  ops.foldl (applyLoaderOp limit) s

/-- A completed `fetchResults` step never turns `allowLoadMore` back on. -/
theorem fetchResults_allowLoadMore_mono (limit : Nat) (results : Option (List α))
    (s : PaginatedListState) (h : s.allowLoadMore = false) :
    (fetchResults limit results s).1.allowLoadMore = false := by
  cases results with
  | none => simpa [fetchResults] using h
  | some rs =>
      simp only [fetchResults, h]
      split <;> rfl

/-- No loader operation turns `allowLoadMore` back on: once false it stays
false after any single operation. -/
theorem applyLoaderOp_allowLoadMore_mono (limit : Nat) (s : PaginatedListState)
    (op : LoaderOp α) (h : s.allowLoadMore = false) :
    (applyLoaderOp limit s op).allowLoadMore = false := by
  cases op with
  | fetchStep results => exact fetchResults_allowLoadMore_mono limit results s h
  | loadMore results => simp [applyLoaderOp, loadMoreResults, h]
  | update fetchChanged results =>
      cases fetchChanged with
      | false => simpa [applyLoaderOp, componentDidUpdate] using h
      | true =>
          simpa [applyLoaderOp, componentDidUpdate] using
            fetchResults_allowLoadMore_mono limit results s h

/-- C1: for every page size N, a fetch step returning exactly N items advances
the offset by exactly N and leaves `allowLoadMore` true; a fetch step
returning fewer than N items (including zero) sets `allowLoadMore` to false
and does not advance the offset; and once `allowLoadMore` is false, no
sequence of loader operations ever sets it back to true. -/
theorem fetchResults_page_semantics (limit : Nat) (hlim : 0 < limit)
    (s : PaginatedListState) (rs : List α) :
    (rs.length = limit →
      (fetchResults limit (some rs) s).1.offset = s.offset + limit ∧
      (s.allowLoadMore = true → (fetchResults limit (some rs) s).1.allowLoadMore = true)) ∧
    (rs.length < limit →
      (fetchResults limit (some rs) s).1.allowLoadMore = false ∧
      (fetchResults limit (some rs) s).1.offset = s.offset) ∧
    (∀ (t : PaginatedListState) (ops : List (LoaderOp α)), t.allowLoadMore = false →
      (runLoaderOps limit t ops).allowLoadMore = false) := by
  refine ⟨?_, ?_, ?_⟩
  · intro hfull
    have hcond : ¬(rs.length = 0 ∨ rs.length < limit) := by omega
    constructor
    · simp only [fetchResults]
      rw [if_neg hcond]
    · intro htrue
      simp only [fetchResults]
      rw [if_neg hcond]
      exact htrue
  · intro hshort
    have hcond : rs.length = 0 ∨ rs.length < limit := Or.inr hshort
    constructor <;>
      · simp only [fetchResults]
        rw [if_pos hcond]
  · intro t ops h
    induction ops generalizing t with
    | nil => exact h
    | cons op ops ih =>
        exact ih (applyLoaderOp limit t op) (applyLoaderOp_allowLoadMore_mono limit t op h)

/-- C1 witness: page size 2; a full page of 2 advances the offset from 0 to 2;
a page of 1 turns `allowLoadMore` off; a further fetch step leaves it off. -/
theorem fetchResults_page_semantics_witness :
    (fetchResults 2 (some ([0, 1] : List Nat)) initialPaginatedState).1.offset
        = initialPaginatedState.offset + 2 ∧
    (fetchResults 2 (some ([0] : List Nat)) initialPaginatedState).1.allowLoadMore = false ∧
    (runLoaderOps 2 { initialPaginatedState with allowLoadMore := false }
        [LoaderOp.fetchStep (some ([0, 1] : List Nat))]).allowLoadMore = false := by
  refine ⟨?_, ?_, ?_⟩
  · exact ((fetchResults_page_semantics 2 (by decide) initialPaginatedState [0, 1]).1
      (by decide)).1
  · exact ((fetchResults_page_semantics 2 (by decide) initialPaginatedState [0]).2.1
      (by decide)).1
  · exact (fetchResults_page_semantics (α := Nat) 2 (by decide) initialPaginatedState
      []).2.2 _ _ (by decide)

/-- C2: when a fetch is in flight or no more pages are allowed, `loadMoreResults`
dispatches no fetch and leaves the whole loader state unchanged. -/
theorem loadMoreResults_noop_when_guarded (limit : Nat) (results : Option (List α))
    (s : PaginatedListState) (h : s.isFetching = true ∨ s.allowLoadMore = false) :
    loadMoreResults limit results s = (s, none) := by
  rcases h with h | h <;> simp [loadMoreResults, h]

/-- C2 witness: a concrete state mid-fetch is left untouched by `loadMoreResults`. -/
theorem loadMoreResults_noop_witness :
    loadMoreResults 2 (some ([5] : List Nat))
        { isLoaded := true, isFetching := true, offset := 4, allowLoadMore := true }
      = ({ isLoaded := true, isFetching := true, offset := 4, allowLoadMore := true }, none) :=
  loadMoreResults_noop_when_guarded 2 (some [5]) _ (Or.inl rfl)

/-- C3 counterexample: after a change of the injected fetch function, a loader
at offset 10 dispatches its fetch at offset 10 (not 0), ends at offset 20
(never reset to 0), and a loader whose `allowLoadMore` is false keeps it
false (never reset to true). -/
theorem componentDidUpdate_no_reset_cex :
    (componentDidUpdate (α := Nat) true 10 (some (List.range 10))
        { isLoaded := true, isFetching := false, offset := 10, allowLoadMore := true }).2
      = some { limit := 10, offset := 10 } ∧
    (componentDidUpdate (α := Nat) true 10 (some (List.range 10))
        { isLoaded := true, isFetching := false, offset := 10, allowLoadMore := true }).1.offset
      = 20 ∧
    (componentDidUpdate (α := Nat) true 10 (some (List.range 10))
        { isLoaded := true, isFetching := false, offset := 10,
          allowLoadMore := false }).1.allowLoadMore = false := by
  decide

/-- C3 (amended): on mount the loader fetches page 0, because the initial state
has offset 0 and `allowLoadMore` true; when the fetch function identity
changes, `componentDidUpdate` re-runs `fetchResults` at the CURRENT offset
without resetting offset or `allowLoadMore`; with no identity change it does
nothing. -/
theorem componentDidUpdate_fetch_current_offset (limit : Nat) (results : Option (List α))
    (s : PaginatedListState) :
    (componentDidMount limit results).2 = { limit := limit, offset := 0 } ∧
    initialPaginatedState.offset = 0 ∧
    initialPaginatedState.allowLoadMore = true ∧
    (componentDidUpdate true limit results s).2 = some { limit := limit, offset := s.offset } ∧
    (componentDidUpdate true limit results s).1 = (fetchResults limit results s).1 ∧
    componentDidUpdate false limit results s = (s, none) := by
  refine ⟨rfl, rfl, rfl, ?_, ?_, ?_⟩ <;>
    simp [componentDidMount, componentDidUpdate, fetchResults]

/-- C10: a fetch that resolves to a falsy value (no list at all) is treated like
a full page: the offset advances by the page size, `allowLoadMore` stays true,
and a subsequent `loadMoreResults` dispatches another fetch at the advanced
offset. -/
theorem fetch_falsy_advances_offset (limit : Nat) (s : PaginatedListState)
    (h : s.allowLoadMore = true) (next : Option (List α)) :
    (fetchResults (α := α) limit none s).1.offset = s.offset + limit ∧
    (fetchResults (α := α) limit none s).1.allowLoadMore = true ∧
    (loadMoreResults limit next (fetchResults (α := α) limit none s).1).2
      = some { limit := limit, offset := s.offset + limit } := by
  refine ⟨rfl, h, ?_⟩
  simp [loadMoreResults, fetchResults, h]

/-- C10 witness: from the initial state, a falsy fetch result advances the
offset to 25 and the next `loadMoreResults` fetches at offset 25. -/
theorem fetch_falsy_advances_offset_witness :
    (fetchResults (α := Nat) 25 none initialPaginatedState).1.offset
        = initialPaginatedState.offset + 25 ∧
    (fetchResults (α := Nat) 25 none initialPaginatedState).1.allowLoadMore = true ∧
    (loadMoreResults 25 (some ([] : List Nat))
        (fetchResults (α := Nat) 25 none initialPaginatedState).1).2
      = some { limit := 25, offset := initialPaginatedState.offset + 25 } :=
  fetch_falsy_advances_offset 25 initialPaginatedState rfl (some [])

/-!
The second part embeds `src/app/scenes/Document/Document.js` (`DocumentScene`).
The external collaborators (document store, revision store, the document
entity save operation, routing) are embedded as inputs: the values their
asynchronous calls resolve to (`Except` for calls that may throw) are passed
into the state transformer, and the side effects the scene performs on them
(navigation pushes and replaces, `ui.setActiveDocument`, the mark-as-viewed
timer, the persisted save) are returned in an effects record.
-/

/-- Whitespace as stripped by the JavaScript `trim` method, restricted to the
ASCII whitespace characters that occur in document text. -/
def isJsSpace (c : Char) : Bool := c = ' ' ∨ c = '\t' ∨ c = '\n' ∨ c = '\r'

/-- The JavaScript `String.prototype.trim`: strip whitespace from both ends.
Document texts are embedded as lists of characters so that this is
executable down to the kernel. -/
def jsTrim (text : List Char) : List Char :=
  ((text.dropWhile isJsSpace).reverse.dropWhile isJsSpace).reverse

/-- Whether `text` ends with `suffix`, embedding the anchored regular
expression test `pathname.match(/move$/)` used by `loadDocument`. -/
def listEndsWith (text suffix : List Char) : Bool :=
  suffix == text.drop (text.length - suffix.length)

/-- The fields of `models/Document` the scene reads: `id` (none while the
document was never saved, so that `!document.id` is truthiness of `id`),
the mutable `text`, the canonical `url`, `publishedAt` (none when
unpublished), `isArchived`, and the entity-level `isSaving` flag consulted
by the save guard. -/
structure Doc where
  id : Option String
  text : List Char
  url : String
  publishedAt : Option String
  isArchived : Bool
  isSaving : Bool
deriving DecidableEq, Repr

/-- The fields of `models/Revision` the scene reads. -/
structure Rev where
  id : String
  text : List Char
deriving DecidableEq, Repr

/-- The observable state of `DocumentScene`. Errors are embedded as strings. -/
structure SceneState where
  document : Option Doc
  revision : Option Rev
  isUploading : Bool
  isSaving : Bool
  isPublishing : Bool
  isDirty : Bool
  isEmpty : Bool
  error : Option String
deriving DecidableEq, Repr

/-- `AUTOSAVE_DELAY` of Document.js. -/
def AUTOSAVE_DELAY : Nat := 3000

/-- `IS_DIRTY_DELAY` of Document.js. -/
def IS_DIRTY_DELAY : Nat := 500

/-- `MARK_AS_VIEWED_AFTER` of Document.js. -/
def MARK_AS_VIEWED_AFTER : Nat := 3000

/-- lodash `debounce` with its default trailing edge, as used by Document.js:
a burst of calls whose last call happens at time `lastCall` results in a
single invocation of the wrapped function at time `lastCall + delay`. -/
def debounceFireTime (delay : Nat) (lastCall : Nat) : Nat := lastCall + delay

/-- The time at which the debounced dirty-check body runs, given the time of
the last change event. -/
def updateIsDirtyFireTime (lastChange : Nat) : Nat :=
  debounceFireTime IS_DIRTY_DELAY lastChange

/-- The time at which the debounced autosave body runs, given the time of the
last change event. -/
def autosaveFireTime (lastChange : Nat) : Nat :=
  debounceFireTime AUTOSAVE_DELAY lastChange

/-- The body of the debounced `updateIsDirty` of `DocumentScene`:
`editorText` is the value of `this.getEditorText()`; `isEmpty` becomes true
iff the trimmed text is the single hash, and `isDirty` becomes true iff a
document is loaded and the trimmed text differs from the trimmed document
text. -/
def updateIsDirty (editorText : List Char) (s : SceneState) : SceneState :=
  let trimmed := jsTrim editorText
  { s with
    isEmpty := decide (trimmed = ['#']),
    isDirty :=
      match s.document with
      | some document => decide (trimmed ≠ jsTrim document.text)
      | none => false }

/-- The options object accepted by `onSave`. -/
structure SaveOptions where
  done : Bool
  publish : Bool
  autosave : Bool
deriving DecidableEq, Repr

/-- The externally visible effects of one `onSave` call: the options the
document save operation was invoked with (none when the call returned
early), whether the transient `isSaving`/`isPublishing` flags were raised
around the save, the `history.push` target, and the document passed to
`ui.setActiveDocument`. -/
structure SaveEffects where
  persisted : Option SaveOptions
  flaggedSaving : Bool
  navigatedTo : Option String
  activated : Option Doc
deriving DecidableEq, Repr

/-- The effects of an `onSave` call that returned early. -/
def SaveEffects.noEffects : SaveEffects :=
  { persisted := none, flaggedSaving := false, navigatedTo := none, activated := none }

/-- Modelled from the spec: `documentEditUrl` comes from `utils/routeHelpers`,
which is not among the source files. The spec distinguishes a document edit
path (the route matched by `matchDocumentEdit`) from the canonical URL of
the document, so the edit URL is embedded as the document URL extended by an
edit segment. -/
def documentEditUrl (d : Doc) : String := d.url ++ "/edit"

/-- `onSave` of `DocumentScene`. `getEditorText` is `some t` when
`this.getEditorText` has been set by the editor (in which case the current
text is `t`) and `none` otherwise (the document text is used). `saveResult`
is the document which the external `document.save(options)` promise resolves
to. Mirrors the source guards in order: no document, entity already saving,
single-hash placeholder text, autosave with unchanged trimmed text; then the
mutation of `document.text`, the flag raising/clearing around the awaited
save, and the navigation policy on `options.done` or a previously unsaved
document. -/
def onSave (options : SaveOptions) (getEditorText : Option (List Char)) (saveResult : Doc)
    (s : SceneState) : SceneState × SaveEffects :=
  match s.document with
  | none => (s, SaveEffects.noEffects)
  | some document =>
    if document.isSaving then (s, SaveEffects.noEffects)
    else
      let text := getEditorText.getD document.text
      if jsTrim text = ['#'] then (s, SaveEffects.noEffects)
      else if options.autosave = true ∧ jsTrim document.text = jsTrim text then
        (s, SaveEffects.noEffects)
      else
        let mutated : Doc := { document with text := text }
        let isNew := mutated.id = none
        let s2 : SceneState :=
          { s with document := some mutated,
                   isDirty := false, isSaving := false, isPublishing := false }
        if options.done then
          (s2, { persisted := some options, flaggedSaving := true,
                 navigatedTo := some saveResult.url, activated := some saveResult })
        else if isNew then
          (s2, { persisted := some options, flaggedSaving := true,
                 navigatedTo := some (documentEditUrl saveResult),
                 activated := some saveResult })
        else
          (s2, { persisted := some options, flaggedSaving := true,
                 navigatedTo := none, activated := none })

/-- The route-derived inputs of `loadDocument`: the share and revision ids of
`match.params`, `location.pathname`, `match.url`, and whether `match.path`
equals `matchDocumentEdit`. -/
structure RouteParams where
  shareId : Option String
  revisionId : Option String
  pathname : String
  matchUrl : String
  isEditPath : Bool
deriving DecidableEq, Repr

/-- The externally visible effects of one `loadDocument` call: the document
passed to `ui.setActiveDocument`, the `history.push` target (the canonical
redirect for an archived document in edit mode), the `history.replace`
target (URL normalization), and the delay of the scheduled mark-as-viewed
timer, if one was scheduled. -/
structure LoadEffects where
  activated : Option Doc
  pushed : Option String
  replaced : Option String
  viewTimer : Option Nat
deriving DecidableEq, Repr

/-- The effects of a `loadDocument` call that returned from the catch block. -/
def LoadEffects.noEffects : LoadEffects :=
  { activated := none, pushed := none, replaced := none, viewTimer := none }

/-- The `isEditing` getter of `DocumentScene`: the route is the edit path, or a
document is present whose `id` is falsy (a new, never saved document). -/
def isEditingWith (isEditPath : Bool) (document : Option Doc) : Bool :=
  isEditPath ||
    (match document with
     | some d => d.id.isNone
     | none => false)

/-- The tail of `loadDocument` after the try/catch block (source lines 189 to
216): clear `isDirty`/`isEmpty`, and when a document is present register it
as active, redirect an archived document in edit mode to its canonical URL,
schedule the mark-as-viewed timer for an authenticated non-share view of a
published document, and normalize the URL unless a revision is shown or the
path ends in the move sub-route. `updateDocumentUrl` is the helper of
`utils/routeHelpers`, taken as an input. -/
def finishLoad (route : RouteParams) (authUser : Bool)
    (updateDocumentUrl : String → String → String) (s : SceneState) :
    SceneState × LoadEffects :=
  let s2 : SceneState := { s with isDirty := false, isEmpty := false }
  match s2.document with
  | none => (s2, LoadEffects.noEffects)
  | some document =>
    if document.isArchived = true ∧ isEditingWith route.isEditPath (some document) = true then
      (s2, { activated := some document, pushed := some document.url,
             replaced := none, viewTimer := none })
    else if authUser = true ∧ route.shareId = none then
      let viewTimer : Option Nat :=
        if isEditingWith route.isEditPath (some document) = false ∧
            document.publishedAt.isSome = true then
          some MARK_AS_VIEWED_AFTER
        else none
      let replaced : Option String :=
        if s2.revision = none ∧ listEndsWith route.pathname.toList "move".toList = false then
          if route.pathname ≠ updateDocumentUrl route.matchUrl document.url then
            some (updateDocumentUrl route.matchUrl document.url)
          else none
        else none
      (s2, { activated := some document, pushed := none,
             replaced := replaced, viewTimer := viewTimer })
    else
      (s2, { activated := some document, pushed := none,
             replaced := none, viewTimer := none })

/-- `loadDocument` of `DocumentScene`. `docResult` is what the awaited
`documents.fetch(documentSlug, \x7b shareId \x7d)` settles to, and
`revResult` what `revisions.fetch(documentSlug, \x7b revisionId \x7d)`
settles to (consulted only when the route carries a revision id and the
document fetch succeeded). A throw from either fetch is caught: the error
field is set and the call returns at once. -/
def loadDocument (route : RouteParams) (authUser : Bool)
    (docResult : Except String Doc) (revResult : Except String Rev)
    (updateDocumentUrl : String → String → String) (s : SceneState) :
    SceneState × LoadEffects :=
  match docResult with
  | .error err => ({ s with error := some err }, LoadEffects.noEffects)
  | .ok d =>
    let s1 : SceneState := { s with document := some d }
    match route.revisionId with
    | some _ =>
      match revResult with
      | .error err => ({ s1 with error := some err }, LoadEffects.noEffects)
      | .ok r => finishLoad route authUser updateDocumentUrl { s1 with revision := some r }
    | none => finishLoad route authUser updateDocumentUrl { s1 with revision := none }

/-- Whether an embedded awaited revision fetch settled without throwing. -/
def settledOk : Except String Rev → Bool
  | .ok _ => true
  | .error _ => false

/-- The field initializers of `DocumentScene` before the constructor body runs:
no document, no revision, all flags down except `isEmpty`, no error. -/
def initialSceneState : SceneState :=
  { document := none, revision := none, isUploading := false, isSaving := false,
    isPublishing := false, isDirty := false, isEmpty := true, error := none }

/-- A concrete published, saved document, used by concrete instantiations. -/
def docA : Doc :=
  { id := some "1", text := "# Title".toList, url := "/d/title-1",
    publishedAt := some "2019-01-01", isArchived := false, isSaving := false }

/-- A concrete unpublished document: no `publishedAt`. -/
def draftDoc : Doc :=
  { id := some "2", text := "# Draft".toList, url := "/d/draft-2",
    publishedAt := none, isArchived := false, isSaving := false }

/-- A concrete never-saved document: no `id`. -/
def newDoc : Doc :=
  { id := none, text := "# T".toList, url := "", publishedAt := none,
    isArchived := false, isSaving := false }

/-- The document a concrete save operation resolves to. -/
def savedDoc : Doc :=
  { id := some "9", text := "# T2".toList, url := "/d/t-9",
    publishedAt := none, isArchived := false, isSaving := false }

/-- A concrete scene state with `docA` loaded. -/
def sceneA : SceneState :=
  { document := some docA, revision := none, isUploading := false, isSaving := false,
    isPublishing := false, isDirty := false, isEmpty := false, error := none }

/-- A concrete scene state with the unsaved `newDoc` loaded. -/
def sceneNew : SceneState :=
  { document := some newDoc, revision := none, isUploading := false, isSaving := false,
    isPublishing := false, isDirty := true, isEmpty := false, error := none }

/-- A concrete route with no share id and no revision id, off the edit path. -/
def routeA : RouteParams :=
  { shareId := none, revisionId := none, pathname := "/d/draft-2",
    matchUrl := "/d/draft-2", isEditPath := false }

/-- A concrete route carrying a revision id. -/
def routeRev : RouteParams :=
  { shareId := none, revisionId := some "5", pathname := "/d/title-1/history/5",
    matchUrl := "/d/title-1", isEditPath := false }

/-- An `updateDocumentUrl` collaborator that returns the document URL. -/
def uIdent : String → String → String := fun _ docUrl => docUrl

/-- C4: when the current editor text trims to the single hash placeholder, the
debounced dirty-check sets `isEmpty` to true, and every save attempt, with
any options, returns leaving the state untouched and with no effects: the
save is not persisted, the `isSaving`/`isPublishing` flags are not raised,
and no navigation happens. -/
theorem empty_placeholder_suppresses_save (s : SceneState) (t : List Char)
    (options : SaveOptions) (saveResult : Doc) (ht : jsTrim t = ['#']) :
    (updateIsDirty t s).isEmpty = true ∧
    onSave options (some t) saveResult s = (s, SaveEffects.noEffects) := by
  constructor
  · simp [updateIsDirty, ht]
  · cases hdoc : s.document with
    | none => simp [onSave, hdoc]
    | some document =>
        by_cases hs : document.isSaving <;>
          simp [onSave, hdoc, hs, ht]

/-- C4 witness: a scene with a loaded document and editor text that trims to
the single hash: `isEmpty` is set and an explicit publish save is a no-op. -/
theorem empty_placeholder_suppresses_save_witness :
    (updateIsDirty [' ', '#', ' '] sceneA).isEmpty = true ∧
    onSave ⟨true, true, false⟩ (some [' ', '#', ' ']) savedDoc sceneA
      = (sceneA, SaveEffects.noEffects) :=
  empty_placeholder_suppresses_save sceneA [' ', '#', ' ']
    ⟨true, true, false⟩ savedDoc (by decide)

/-- C5: an autosave whose trimmed editor text equals the trimmed last-saved
document text returns with no persisting; an explicit save (no autosave
option) is not subject to that check and reaches the persist step under the
same equal-text condition, provided the entity is not already saving and the
text is not the single-hash placeholder. -/
theorem autosave_suppressed_explicit_proceeds (s : SceneState) (document : Doc)
    (t : List Char) (options : SaveOptions) (saveResult : Doc)
    (hdoc : s.document = some document) :
    (options.autosave = true → jsTrim document.text = jsTrim t →
      onSave options (some t) saveResult s = (s, SaveEffects.noEffects)) ∧
    (options.autosave = false → document.isSaving = false → jsTrim t ≠ ['#'] →
      (onSave options (some t) saveResult s).2.persisted = some options) := by
  constructor
  · intro hauto heq
    by_cases hs : document.isSaving
    · simp [onSave, hdoc, hs]
    · by_cases hhash : jsTrim t = ['#']
      · simp [onSave, hdoc, hs, hhash]
      · simp [onSave, hdoc, hs, hhash, hauto, heq]
  · intro hauto hs hhash
    simp only [onSave, hdoc, hs, Option.getD_some]
    rw [if_neg (by simp)]
    rw [if_neg hhash]
    rw [if_neg (by simp [hauto])]
    split
    · rfl
    · split <;> rfl

/-- C5 witness: autosave with text equal to the saved text up to trimming is a
no-op; an explicit save with the very same text persists. -/
theorem autosave_suppressed_explicit_proceeds_witness :
    onSave ⟨false, false, true⟩ (some (' ' :: "# Title".toList)) savedDoc sceneA
      = (sceneA, SaveEffects.noEffects) ∧
    (onSave ⟨false, false, false⟩ (some (' ' :: "# Title".toList)) savedDoc sceneA).2.persisted
      = some ⟨false, false, false⟩ := by
  constructor
  · exact (autosave_suppressed_explicit_proceeds sceneA docA (' ' :: "# Title".toList)
      ⟨false, false, true⟩ savedDoc rfl).1 rfl (by decide)
  · exact (autosave_suppressed_explicit_proceeds sceneA docA (' ' :: "# Title".toList)
      ⟨false, false, false⟩ savedDoc rfl).2 rfl rfl (by decide)

/-- C6: after the debounced dirty-check body runs, `isDirty` is true exactly
when the trimmed editor text differs from the trimmed text of the loaded
document, and the debounced body runs 500 ms after the last change event. -/
theorem updateIsDirty_iff_text_differs (s : SceneState) (document : Doc)
    (t : List Char) (lastChange : Nat) (hdoc : s.document = some document) :
    ((updateIsDirty t s).isDirty = true ↔ jsTrim t ≠ jsTrim document.text) ∧
    updateIsDirtyFireTime lastChange = lastChange + 500 := by
  constructor
  · simp [updateIsDirty, hdoc]
  · rfl

/-- C6 witness: a changed text makes `isDirty` true after the 500 ms check. -/
theorem updateIsDirty_iff_text_differs_witness :
    ((updateIsDirty "# Other".toList sceneA).isDirty = true ↔
      jsTrim "# Other".toList ≠ jsTrim docA.text) ∧
    updateIsDirtyFireTime 7 = 7 + 500 :=
  updateIsDirty_iff_text_differs sceneA docA "# Other".toList 7 rfl

/-- C7: a load whose document fetch throws, or whose revision fetch throws when
the route carries a revision id, sets the error field to the thrown error
and does nothing else: the dirty and empty flags keep their values, no
document is registered as active, no navigation push or URL replacement
happens, and no mark-as-viewed timer is scheduled. -/
theorem loadDocument_error_stops (route : RouteParams) (authUser : Bool)
    (revResult : Except String Rev) (u : String → String → String)
    (s : SceneState) (err : String) :
    loadDocument route authUser (Except.error err) revResult u s
      = ({ s with error := some err }, LoadEffects.noEffects) ∧
    (∀ d : Doc, route.revisionId.isSome = true →
      loadDocument route authUser (Except.ok d) (Except.error err) u s
        = ({ s with document := some d, error := some err }, LoadEffects.noEffects)) := by
  constructor
  · rfl
  · intro d hrev
    cases hr : route.revisionId with
    | none => simp [hr] at hrev
    | some rid => simp [loadDocument, hr]

/-- C7 witness: a throwing document fetch, and a throwing revision fetch on a
revision route, each set the error and leave everything else untouched. -/
theorem loadDocument_error_stops_witness :
    loadDocument routeA true (Except.error "offline") (Except.error "offline") uIdent
        initialSceneState
      = ({ initialSceneState with error := some "offline" }, LoadEffects.noEffects) ∧
    loadDocument routeRev true (Except.ok docA) (Except.error "gone") uIdent
        initialSceneState
      = ({ initialSceneState with document := some docA, error := some "gone" },
         LoadEffects.noEffects) := by
  constructor
  · exact (loadDocument_error_stops routeA true (Except.error "offline") uIdent
      initialSceneState "offline").1
  · exact (loadDocument_error_stops routeRev true (Except.error "gone") uIdent
      initialSceneState "gone").2 docA rfl

/-- The mark-as-viewed timer scheduled by the tail of a successful load:
it is the 3000 ms timer exactly when the viewer is authenticated, the route
carries no share id, the scene is not in edit mode and the document is
published. -/
theorem finishLoad_viewTimer (route : RouteParams) (authUser : Bool)
    (u : String → String → String) (s : SceneState) (d : Doc)
    (hdoc : s.document = some d) :
    ((finishLoad route authUser u s).2.viewTimer = some MARK_AS_VIEWED_AFTER ↔
      (authUser = true ∧ route.shareId = none ∧
        isEditingWith route.isEditPath (some d) = false ∧
        d.publishedAt.isSome = true)) := by
  simp only [finishLoad, hdoc]
  by_cases h1 : d.isArchived = true ∧ isEditingWith route.isEditPath (some d) = true
  · rw [if_pos h1]
    constructor
    · intro h; exact Option.noConfusion h
    · rintro ⟨-, -, he, -⟩
      rw [h1.2] at he
      exact Bool.noConfusion he
  · rw [if_neg h1]
    by_cases h2 : authUser = true ∧ route.shareId = none
    · rw [if_pos h2]
      by_cases h3 : isEditingWith route.isEditPath (some d) = false ∧
          d.publishedAt.isSome = true
      · rw [if_pos h3]
        simp only [true_iff, eq_self_iff_true]
        exact ⟨h2.1, h2.2, h3.1, h3.2⟩
      · rw [if_neg h3]
        constructor
        · intro h; exact Option.noConfusion h
        · rintro ⟨-, -, he, hp⟩
          exact absurd ⟨he, hp⟩ h3
    · rw [if_neg h2]
      constructor
      · intro h; exact Option.noConfusion h
      · rintro ⟨ha, hs, -, -⟩
        exact absurd ⟨ha, hs⟩ h2

/-- C8 counterexample: a successful load by an authenticated viewer, with no
share id and not in edit mode, of a document without a `publishedAt`
timestamp, schedules no mark-as-viewed timer. -/
theorem view_timer_requires_published_cex :
    (loadDocument routeA true (Except.ok draftDoc) (Except.error "") uIdent
        initialSceneState).2.viewTimer = none ∧
    routeA.shareId = none ∧
    isEditingWith routeA.isEditPath (some draftDoc) = false ∧
    (loadDocument routeA true (Except.ok draftDoc) (Except.error "") uIdent
        initialSceneState).1.error = none := by
  decide

/-- C8 (amended): on a load whose fetches settle without throwing, the 3000 ms
mark-as-viewed timer is scheduled exactly when the viewer is authenticated,
the route carries no share id, the scene is not in edit mode, and the loaded
document has a `publishedAt` timestamp; a load whose document fetch throws
schedules no timer. -/
theorem view_timer_iff_conditions (route : RouteParams) (authUser : Bool) (d : Doc)
    (revResult : Except String Rev) (u : String → String → String) (s : SceneState) :
    ((loadDocument route authUser (Except.ok d) revResult u s).2.viewTimer
        = some MARK_AS_VIEWED_AFTER ↔
      ((route.revisionId = none ∨ settledOk revResult = true) ∧
        authUser = true ∧ route.shareId = none ∧
        isEditingWith route.isEditPath (some d) = false ∧
        d.publishedAt.isSome = true)) ∧
    (∀ err : String,
      (loadDocument route authUser (Except.error err) revResult u s).2.viewTimer = none) := by
  constructor
  · cases hr : route.revisionId with
    | none =>
        have hft := finishLoad_viewTimer route authUser u
          { s with document := some d, revision := none } d rfl
        simp only [loadDocument, hr]
        rw [hft]
        simp
    | some rid =>
        cases revResult with
        | ok r =>
            have hft := finishLoad_viewTimer route authUser u
              { s with document := some d, revision := some r } d rfl
            simp only [loadDocument, hr]
            rw [hft]
            simp [settledOk]
        | error e =>
            simp [loadDocument, hr, settledOk, LoadEffects.noEffects]
  · intro err
    rfl

/-- C9 counterexample: the first save of a previously unsaved document, without
the done option, persists but navigates to the EDIT URL of the resulting
document, which differs from the resulting document URL. -/
theorem first_save_navigates_to_edit_url_cex :
    (onSave ⟨false, false, false⟩ (some "# T2".toList) savedDoc sceneNew).2.persisted
      = some ⟨false, false, false⟩ ∧
    (onSave ⟨false, false, false⟩ (some "# T2".toList) savedDoc sceneNew).2.navigatedTo
      = some (documentEditUrl savedDoc) ∧
    documentEditUrl savedDoc ≠ savedDoc.url := by
  decide

/-- C9 (amended): every save that passes the guards ends with the dirty, saving
and publishing flags cleared and the options persisted; a save with the done
option navigates to the resulting document URL and registers the resulting
document as active; a first save of a previously unsaved document without
the done option navigates to the EDIT URL of the resulting document and
registers it as active; any other completed save neither navigates nor
registers. -/
theorem save_completion_flags_and_navigation (s : SceneState) (document : Doc)
    (t : List Char) (options : SaveOptions) (saveResult : Doc)
    (hdoc : s.document = some document) (hsv : document.isSaving = false)
    (hhash : jsTrim t ≠ ['#'])
    (hauto : ¬(options.autosave = true ∧ jsTrim document.text = jsTrim t)) :
    (onSave options (some t) saveResult s).1.isDirty = false ∧
    (onSave options (some t) saveResult s).1.isSaving = false ∧
    (onSave options (some t) saveResult s).1.isPublishing = false ∧
    (onSave options (some t) saveResult s).2.persisted = some options ∧
    (onSave options (some t) saveResult s).2.flaggedSaving = true ∧
    (options.done = true →
      (onSave options (some t) saveResult s).2.navigatedTo = some saveResult.url ∧
      (onSave options (some t) saveResult s).2.activated = some saveResult) ∧
    (options.done = false → document.id = none →
      (onSave options (some t) saveResult s).2.navigatedTo
          = some (documentEditUrl saveResult) ∧
      (onSave options (some t) saveResult s).2.activated = some saveResult) ∧
    (options.done = false → document.id ≠ none →
      (onSave options (some t) saveResult s).2.navigatedTo = none ∧
      (onSave options (some t) saveResult s).2.activated = none) := by
  by_cases hd : options.done = true <;> by_cases hn : document.id = none <;>
    simp [onSave, hdoc, hsv, hhash, hauto, hd, hn]

/-- C9 witness: a done save of an existing document persists, clears the flags
and navigates to the resulting document URL; a first save without done
persists and navigates to the edit URL of the resulting document. -/
theorem save_completion_flags_and_navigation_witness :
    (onSave ⟨true, false, false⟩ (some "# Other".toList) savedDoc sceneA).1.isDirty = false ∧
    (onSave ⟨true, false, false⟩ (some "# Other".toList) savedDoc sceneA).2.navigatedTo
      = some savedDoc.url ∧
    (onSave ⟨false, false, false⟩ (some "# Other".toList) savedDoc sceneNew).2.navigatedTo
      = some (documentEditUrl savedDoc) := by
  have h1 := save_completion_flags_and_navigation sceneA docA "# Other".toList
    ⟨true, false, false⟩ savedDoc rfl rfl (by decide) (by decide)
  have h2 := save_completion_flags_and_navigation sceneNew newDoc "# Other".toList
    ⟨false, false, false⟩ savedDoc rfl rfl (by decide) (by decide)
  exact ⟨h1.1, (h1.2.2.2.2.2.1 rfl).1, (h2.2.2.2.2.2.2.1 rfl rfl).1⟩

end Spec2Proof
